import Mathlib

/-!
Shallow embedding of the Fina financial-analysis client.

The definitions below are translated from the TypeScript source:
* `src/types.ts` — the data model (`AnalysisResult` and its parts);
* `src/components/Dashboard.tsx` — the presentation-derivation layer
  (`targetYear`, `comparisonData`, `currentData`, the anomaly display sort,
  and the comparison chart's empty-state guard);
* `src/unnamed/part_003` — the older dashboard variant's `topAnomalies`
  (weight-based anomaly ranking);
* `src/services/geminiService.ts` — the response normalizer
  (`analyzeFinancialDocument`, lines 263-273) and the file-ingestion logic
  (`compressImage`, `handleFileChange`).

JavaScript string values are modelled as Lean `String`; optional fields as
`Option`; JS numbers as `ℚ` (the code never does arithmetic on data values,
it only copies and compares them, and the only arithmetic — the image resize —
is exact rational arithmetic on dimensions).  JS truthiness of a
`string | undefined` value is modelled explicitly (`undefined` and `""` are
falsy).  `Array.prototype.sort` (stable since ES2019) is modelled by a stable
insertion sort.  `String.prototype.localeCompare` on the digit-only year
labels used by the dashboard coincides with code-point lexicographic order,
which is how it is modelled here (`yearKey`).
-/

namespace Fina

/-- `Anomaly.impact` enumeration from `src/types.ts`. -/
inductive Impact where
  | High
  | Medium
  | Low
deriving DecidableEq

/-- `Anomaly` record from `src/types.ts`; `related_entity` is optional. -/
structure Anomaly where
  item : String
  observation : String
  impact : Impact
  related_entity : Option String := none
deriving DecidableEq

/-- The `Good | Average | Poor` status enumeration from `src/types.ts`. -/
inductive Status where
  | Good
  | Average
  | Poor
deriving DecidableEq

/-- `FinancialRatio.category` enumeration from `src/types.ts`. -/
inductive RatioCategory where
  | Liquidity
  | Profitability
  | Efficiency
  | Leverage
deriving DecidableEq

/-- `FinancialMetric` from `src/types.ts`.  The dashboard additionally reads a
`year` field off metrics (`m.year`), so it is modelled as an optional field. -/
structure FinancialMetric where
  label : String
  value : ℚ
  unit : String
  year : Option String := none
deriving DecidableEq

/-- `FinancialRatio` from `src/types.ts`. -/
structure FinancialRatio where
  name : String
  value : ℚ
  benchmark : Option ℚ
  status : Status
  category : RatioCategory
  description : String
deriving DecidableEq

/-- `AccountInsight.status` enumeration from `src/types.ts`. -/
inductive AccountStatus where
  | Normal
  | Concern
  | Good
deriving DecidableEq

/-- `AccountInsight` from `src/types.ts`. -/
structure AccountInsight where
  account_name : String
  value : ℚ
  change_percentage : Option ℚ := none
  analysis : String
  status : AccountStatus
deriving DecidableEq

/-- `EntityInsight` from `src/types.ts`. -/
structure EntityInsight where
  name : String
  liquidity_status : Status
  summary : String
  key_metrics : List FinancialMetric
deriving DecidableEq

/-- `AnalysisResult` from `src/types.ts`; `entity_insights` and
`account_insights` are optional. -/
structure AnalysisResult where
  summary : String
  future_outlook : String
  financial_ratios : List FinancialRatio
  key_metrics : List FinancialMetric
  anomalies : List Anomaly
  entity_insights : Option (List EntityInsight) := none
  account_insights : Option (List AccountInsight) := none
deriving DecidableEq

/-! ## JavaScript semantics helpers -/

/-- JS truthiness of a `string | undefined` value: `undefined` and the empty
string are falsy, every other string is truthy. -/
def strTruthy : Option String → Bool
  | none => false
  | some s => s ≠ ""

/-- JS `x || d` for `x : string | undefined`: falls back to `d` exactly when
`x` is `undefined` or the empty string. -/
def jsOrString (x : Option String) (d : String) : String :=
  match x with
  | none => d
  | some s => if s = "" then d else s

/-- Does the character list `s` start with `pat`?  (helper for the model of
JS `String.prototype.includes` / `String.prototype.startsWith`). -/
def startsWithChars : List Char → List Char → Bool
  | _, [] => true
  | [], _ :: _ => false
  | c :: cs, d :: ds => if c = d then startsWithChars cs ds else false

/-- Does the character list `s` contain `pat` as a contiguous substring? -/
def containsChars (pat : List Char) : List Char → Bool
  | [] => pat.isEmpty
  | c :: rest => startsWithChars (c :: rest) pat || containsChars pat rest

/-- Model of JS `s.includes(pat)`: `pat` occurs as a contiguous substring of
`s`. -/
def jsIncludes (s pat : String) : Bool :=
  containsChars pat.data s.data

/-- Model of JS `s.startsWith(pat)`. -/
def jsStartsWith (s pat : String) : Bool :=
  startsWithChars s.data pat.data

/-- Model of JS `s.split(',')` on character lists: splits at every comma. -/
def jsSplitComma : List Char → List (List Char)
  | [] => [[]]
  | c :: cs =>
      let r := jsSplitComma cs
      if c = ',' then [] :: r
      else
        match r with
        | [] => [[c]]
        | h :: t => (c :: h) :: t

/-- Model of JS `s.split(',')[1]` (the chunk after the first comma), as used
by the ingestion code to strip a data-URL prefix.  When the string holds no
comma the JS expression is `undefined`; that case is modelled as `""` and is
never reached on the data-URL strings the code builds. -/
def splitCommaSecond (s : String) : String :=
  String.mk (((jsSplitComma s.data).drop 1).headD [])

/-- Code-point key of a string, used to model `localeCompare`-based ordering
of the digit-only fiscal-year labels (on such labels the default-locale
`localeCompare` order coincides with code-point lexicographic order). -/
def yearKey (s : String) : List ℕ :=
  s.data.map (fun c => c.val.toNat)

/-! ## Dashboard derivation layer (`src/components/Dashboard.tsx`) -/

/-- The year contributed by one metric to the year sets of
`Dashboard.tsx`: `m.year && years.add(m.year)` adds the year only when it is
truthy (present and non-empty). -/
def truthyYear (m : FinancialMetric) : Option String :=
  match m.year with
  | none => none
  | some y => if y = "" then none else some y

/-- All (truthy) year labels collected by `targetYear` / `availableYears` in
`Dashboard.tsx` lines 33-35: top-level `key_metrics` years followed by every
entity's `key_metrics` years.  The JS code accumulates them into a `Set`,
which only removes duplicates; membership and maximum are unaffected, so the
list keeps duplicates. -/
def yearsOf (data : AnalysisResult) : List String :=
  data.key_metrics.filterMap truthyYear ++
    (data.entity_insights.getD []).flatMap
      (fun e => e.key_metrics.filterMap truthyYear)

/-- Stable descending insertion of a year label (by `yearKey` order):
`x` is placed before the first element not above it. -/
def insertYearDesc (x : String) : List String → List String
  | [] => [x]
  | y :: ys => if yearKey y ≤ yearKey x then x :: y :: ys else y :: insertYearDesc x ys

/-- Model of `Array.from(years).sort((a, b) => b.localeCompare(a))`:
sort the year labels in descending lexicographic order. -/
def sortYearsDesc : List String → List String
  | [] => []
  | x :: xs => insertYearDesc x (sortYearsDesc xs)

/-- `targetYear` from `Dashboard.tsx` lines 32-42: prefer `"2568"`, then
`"2025"`, then the greatest year label in descending string order, then
`""` when no year is present (`sortedYears[0] || ""`). -/
def targetYear (data : AnalysisResult) : String :=
  let years := yearsOf data
  if "2568" ∈ years then "2568"
  else if "2025" ∈ years then "2025"
  else jsOrString (some ((sortYearsDesc years).headD "")) ""

/-- The comparison-panel metric matcher from `Dashboard.tsx` lines 81-84:
`m.label.includes(comparisonMetric) && m.year === comparisonYear`. -/
def metricMatches (sel year : String) (m : FinancialMetric) : Bool :=
  jsIncludes m.label sel && (m.year == some year)

/-- One entry of the cross-entity comparison series
(`{name, value, unit}` objects built in `Dashboard.tsx` lines 86-90). -/
structure CompEntry where
  name : String
  value : ℚ
  unit : String
deriving DecidableEq

/-- `comparisonData` from `Dashboard.tsx` lines 77-92: one entry per entity
of `entity_insights` (empty when that list is absent or empty), taking the
first metric matching the selected label and year, else a zero value. -/
def comparisonData (data : AnalysisResult) (sel year : String) : List CompEntry :=
  match data.entity_insights with
  | none => []
  | some insights =>
      if insights.isEmpty then []
      else
        insights.map (fun e =>
          match e.key_metrics.find? (metricMatches sel year) with
          | some m => { name := e.name, value := m.value, unit := m.unit }
          | none => { name := e.name, value := 0, unit := "" })

/-- The comparison chart's empty-state guard from `renderComparisonChart`
(`Dashboard.tsx` line 145):
`comparisonData.length === 0 || !comparisonData.some(d => d.value !== 0)`. -/
def showsEmptyState (cd : List CompEntry) : Bool :=
  cd.isEmpty || !(cd.any (fun d => d.value != 0))

/-- The record returned by the `currentData` memo in `Dashboard.tsx`. -/
structure CurrentData where
  summary : String
  future : String
  anomalies : List Anomaly
  liquidityStatus : Option Status
  ratios : List FinancialRatio

/-- The anomaly filter applied for a specific entity (`Dashboard.tsx` line
111): `a.related_entity === selectedEntity || !a.related_entity`. -/
def keepAnomaly (sel : String) (a : Anomaly) : Bool :=
  a.related_entity == some sel || !(strTruthy a.related_entity)

/-- `currentData` from `Dashboard.tsx` lines 95-123: for `"Overview"` the
top-level summary / outlook / anomalies / ratios; for any other selection the
first matching entity's summary (with a placeholder fallback), the
entity-filtered anomalies, the entity's liquidity status, and no ratios. -/
def currentData (data : AnalysisResult) (sel : String) : CurrentData :=
  if sel = "Overview" then
    { summary := data.summary
      future := data.future_outlook
      anomalies := data.anomalies
      liquidityStatus := none
      ratios := data.financial_ratios }
  else
    let entityData := (data.entity_insights.getD []).find? (fun e => e.name == sel)
    { summary := jsOrString (entityData.map (fun e => e.summary))
        "No data available for this entity."
      future := "Future outlook available in consolidated overview."
      anomalies := data.anomalies.filter (keepAnomaly sel)
      liquidityStatus := entityData.map (fun e => e.liquidity_status)
      ratios := [] }

/-- Stable descending insertion by a numeric key: `x` is placed before the
first element whose key is not above `x`'s (so equal-key elements keep their
original relative order). -/
def insertDesc (key : α → ℕ) (x : α) : List α → List α
  | [] => [x]
  | y :: ys => if key y ≤ key x then x :: y :: ys else y :: insertDesc key x ys

/-- Model of the stable `Array.prototype.sort` (stable since ES2019) with a
comparator computing `key b - key a`, i.e. a stable sort descending by
`key`. -/
def sortByDesc (key : α → ℕ) : List α → List α
  | [] => []
  | x :: xs => insertDesc key x (sortByDesc key xs)

/-- The sort key of the anomaly sort in `Dashboard.tsx` line 563:
`(impact === 'High' ? 1 : 0)`. -/
def highKey (a : Anomaly) : ℕ :=
  if a.impact = Impact.High then 1 else 0

/-- The displayed anomaly list of `Dashboard.tsx` lines 562-564:
`[...anomalies].sort((a, b) => (b.impact === 'High' ? 1 : 0) - (a.impact ===
'High' ? 1 : 0)).slice(0, 5)`. -/
def displayedAnomalies (l : List Anomaly) : List Anomaly :=
  (sortByDesc highKey l).take 5

/-- The impact weights of `topAnomalies` in `src/unnamed/part_003`
(`{ High: 3, Medium: 2, Low: 1 }`). -/
def impactWeight : Impact → ℕ
  | Impact.High => 3
  | Impact.Medium => 2
  | Impact.Low => 1

/-- `topAnomalies` from `src/unnamed/part_003` lines 135-145: stable sort by
descending impact weight, then take the first 5.  This is also exactly the
ranking described by the spec (fixed order High > Medium > Low, stable,
capped at 5). -/
def topAnomalies (l : List Anomaly) : List Anomaly :=
  (sortByDesc (fun a => impactWeight a.impact) l).take 5

/-! ## Analysis-result normalizer (`src/services/geminiService.ts` 263-273) -/

/-- The two specifically-classified normalizer failures of
`analyzeFinancialDocument`: the empty-response error
(`"AI ไม่สามารถประมวลผลข้อมูลจากไฟล์นี้ได้ (Empty Response)"`) and the
malformed-JSON error
(`"เกิดข้อผิดพลาดในการแปลงผลลัพธ์จาก AI (Invalid JSON Format)"`). -/
inductive AnalyzeError where
  | emptyResponse
  | invalidJson
deriving DecidableEq

/-- The response-normalization tail of `analyzeFinancialDocument`
(`geminiService.ts` lines 263-273).  `text` is `response.text`
(`string | undefined`); `if (!textResponse)` throws the empty-response error
on `undefined` and on `""`; otherwise `JSON.parse` is attempted and a parse
failure throws the malformed-JSON error.  `JSON.parse` is a JS builtin, so it
is taken as a parameter `parse` that returns `none` exactly when `JSON.parse`
would throw. -/
def normalizeResponse (parse : String → Option AnalysisResult)
    (text : Option String) : Except AnalyzeError AnalysisResult :=
  match text with
  | none => Except.error AnalyzeError.emptyResponse
  | some s =>
      if s = "" then Except.error AnalyzeError.emptyResponse
      else
        match parse s with
        | some r => Except.ok r
        | none => Except.error AnalyzeError.invalidJson

/-! ## File ingestion (`src/services/geminiService.ts` 296-396,
`FileUpload` component) -/

/-- The capabilities of the browser canvas pipeline used by `compressImage`:
whether a 2d context is available, and the JPEG encoder behind
`canvas.toDataURL('image/jpeg', quality)` — abstracted as a function of the
drawn width, height, quality and source image (identified by its data URL),
returning the base64 body of the produced data URL. -/
structure CanvasEnv where
  ctxAvailable : Bool
  encodeJpeg : ℚ → ℚ → ℚ → String → String

/-- A user-selected file as seen by `handleFileChange`: its name, MIME type
and byte size, and — for images — the decoded pixel dimensions and the
data URL produced by `FileReader.readAsDataURL`. -/
structure InputFile where
  name : String
  type : String
  size : ℕ
  width : ℚ
  height : ℚ
  dataUrl : String

/-- The resize arithmetic of `compressImage` (`MAX_WIDTH = 1500`): when the
width exceeds 1500 the height is scaled by `1500 / width` and the width is
clamped to 1500; otherwise the dimensions are unchanged. -/
def resizeDims (w h : ℚ) : ℚ × ℚ :=
  if 1500 < w then (1500, h * 1500 / w) else (w, h)

/-- `compressImage` from the `FileUpload` component: with a canvas context,
draw the image at the resized dimensions, re-encode via
`canvas.toDataURL('image/jpeg', 0.8)` and strip the data-URL prefix by
`split(',')[1]`; without a context, resolve with the original data URL
unchanged. -/
def compressImage (env : CanvasEnv) (f : InputFile) : String :=
  if env.ctxAvailable then
    let wh := resizeDims f.width f.height
    let dataUrl := "data:image/jpeg;base64," ++ env.encodeJpeg wh.1 wh.2 (4 / 5) f.dataUrl
    splitCommaSecond dataUrl
  else f.dataUrl

/-- The accepted MIME types of `handleFileChange`. -/
def validTypes : List String :=
  ["image/jpeg", "image/png", "image/webp", "application/pdf",
   "application/vnd.openxmlformats-officedocument.spreadsheetml.sheet",
   "application/vnd.ms-excel", "text/csv"]

/-- `MAX_FILE_SIZE_BYTES = 10 * 1024 * 1024`. -/
def MAX_FILE_SIZE_BYTES : ℕ := 10 * 1024 * 1024

/-- The `FileData` payload from `src/types.ts`. -/
structure FileData where
  base64 : String
  mimeType : String
  name : String
deriving DecidableEq

/-- `handleFileChange` from the `FileUpload` component: reject unsupported
types and oversized files; compress images (reporting `image/jpeg`); read
other files verbatim, stripping the data-URL prefix, keeping their MIME
type.  `none` models the rejected (alert, no payload) outcomes. -/
def handleFileChange (env : CanvasEnv) (f : InputFile) : Option FileData :=
  if ¬ (f.type ∈ validTypes) then none
  else if MAX_FILE_SIZE_BYTES < f.size then none
  else
    let base64 :=
      if jsStartsWith f.type "image/" then compressImage env f
      else splitCommaSecond f.dataUrl
    some { base64 := base64
           mimeType := if jsStartsWith f.type "image/" then "image/jpeg" else f.type
           name := f.name }

/-! ## Spec-side comparison definition -/

/-- Modelled from the spec: the comparison-panel metric matcher as the spec
words it — the metric label contains **or is contained by** the user-chosen
comparison metric label (loose match in either direction), combined with
exact string equality on the selected year.  This definition follows the
spec's words and exists only to be compared with the source's
`metricMatches`. -/
def specMetricMatches (sel year : String) (m : FinancialMetric) : Bool :=
  (jsIncludes m.label sel || jsIncludes sel m.label) && (m.year == some year)

/-! ## Concrete example data (used by witnesses and counterexamples) -/

/-- A metric with the given label, value and year (unit `"THB"`). -/
def mkMetric (label : String) (v : ℚ) (year : String) : FinancialMetric :=
  { label := label, value := v, unit := "THB", year := some year }

/-- An `AnalysisResult` with the given metrics, anomalies and entities and
empty narrative fields. -/
def mkResult (ms : List FinancialMetric) (as : List Anomaly)
    (es : Option (List EntityInsight)) : AnalysisResult :=
  { summary := "sum", future_outlook := "fut", financial_ratios := [],
    key_metrics := ms, anomalies := as, entity_insights := es }

/-- Five anomalies with impacts `[Low, High, Medium, High, Low]`. -/
def exImpacts : List Anomaly :=
  [{ item := "a1", observation := "", impact := Impact.Low },
   { item := "a2", observation := "", impact := Impact.High },
   { item := "a3", observation := "", impact := Impact.Medium },
   { item := "a4", observation := "", impact := Impact.High },
   { item := "a5", observation := "", impact := Impact.Low }]

/-- Data whose metric years are `{"2568", "2024"}`. -/
def exYears1 : AnalysisResult :=
  mkResult [mkMetric "m" 1 "2568", mkMetric "m" 1 "2024"] [] none

/-- Data whose metric years are `{"2025", "2024"}`. -/
def exYears2 : AnalysisResult :=
  mkResult [mkMetric "m" 1 "2025", mkMetric "m" 1 "2024"] [] none

/-- Data whose metric years are `{"2022", "2021"}`. -/
def exYears3 : AnalysisResult :=
  mkResult [mkMetric "m" 1 "2022", mkMetric "m" 1 "2021"] [] none

/-- Entity with a metric matching label `"NetProfit"` and year `"2568"`. -/
def exEntity31 : EntityInsight :=
  { name := "E1", liquidity_status := Status.Good, summary := "s1",
    key_metrics := [mkMetric "NetProfit" 5 "2568"] }

/-- Second entity with a matching metric. -/
def exEntity32 : EntityInsight :=
  { name := "E2", liquidity_status := Status.Average, summary := "s2",
    key_metrics := [mkMetric "NetProfit" 3 "2568"] }

/-- Entity with no metrics at all (hence no match). -/
def exEntity33 : EntityInsight :=
  { name := "E3", liquidity_status := Status.Poor, summary := "s3",
    key_metrics := [] }

/-- Result with three entities, two of which have a matching metric. -/
def exData3 : AnalysisResult :=
  mkResult [] [] (some [exEntity31, exEntity32, exEntity33])

/-- Result with three entities none of which has a matching metric. -/
def exDataZero3 : AnalysisResult :=
  mkResult [] [] (some [exEntity33, { exEntity33 with name := "E4" },
                        { exEntity33 with name := "E5" }])

/-- A metric whose label `"Profit"` is strictly contained in the chosen
comparison label `"ProfitNet"`. -/
def exMetric4 : FinancialMetric := mkMetric "Profit" 7 "2025"

/-- Result with one entity carrying only `exMetric4`. -/
def exData4 : AnalysisResult :=
  mkResult [] []
    (some [{ name := "E1", liquidity_status := Status.Good, summary := "s",
             key_metrics := [exMetric4] }])

/-- Anomaly tied to entity `"X"`. -/
def exAnomalyA : Anomaly :=
  { item := "A", observation := "", impact := Impact.High,
    related_entity := some "X" }

/-- Entity-agnostic anomaly (`related_entity` absent). -/
def exAnomalyB : Anomaly :=
  { item := "B", observation := "", impact := Impact.Medium }

/-- Anomaly tied to entity `"Y"`. -/
def exAnomalyC : Anomaly :=
  { item := "C", observation := "", impact := Impact.Low,
    related_entity := some "Y" }

/-- Result holding the three anomalies `A`, `B`, `C`. -/
def exData5 : AnalysisResult :=
  mkResult [] [exAnomalyA, exAnomalyB, exAnomalyC] none

/-- Anomaly whose `related_entity` is present but the empty string. -/
def exAnomalyE : Anomaly :=
  { item := "E", observation := "", impact := Impact.Low,
    related_entity := some "" }

/-- Result holding only the empty-`related_entity` anomaly. -/
def exData9 : AnalysisResult := mkResult [] [exAnomalyE] none

/-- First of two entities sharing the name `"D"`. -/
def exEntD1 : EntityInsight :=
  { name := "D", liquidity_status := Status.Good, summary := "first",
    key_metrics := [] }

/-- Second of two entities sharing the name `"D"`. -/
def exEntD2 : EntityInsight :=
  { name := "D", liquidity_status := Status.Poor, summary := "second",
    key_metrics := [] }

/-- Result with two entities of the same name. -/
def exData10 : AnalysisResult := mkResult [] [] (some [exEntD1, exEntD2])

/-- A canvas environment with an available context and a constant encoder. -/
def exEnv : CanvasEnv :=
  { ctxAvailable := true, encodeJpeg := fun _ _ _ _ => "ENCODED" }

/-- A 2000x1000 PNG input file. -/
def exImage : InputFile :=
  { name := "scan.png", type := "image/png", size := 1000, width := 2000,
    height := 1000, dataUrl := "data:image/png;base64,AAAA" }

/-- The ingestion payload produced for `exImage` under `exEnv`. -/
def exImagePayload : FileData :=
  { base64 := "ENCODED", mimeType := "image/jpeg", name := "scan.png" }

/-- A PDF input file. -/
def exPdf : InputFile :=
  { name := "doc.pdf", type := "application/pdf", size := 1000, width := 0,
    height := 0, dataUrl := "data:application/pdf;base64,QQQQ" }

/-- The ingestion payload produced for `exPdf` under `exEnv`. -/
def exPdfPayload : FileData :=
  { base64 := "QQQQ", mimeType := "application/pdf", name := "doc.pdf" }

/-! ## Helper lemmas -/

theorem jsOrString_some_empty (s : String) : jsOrString (some s) "" = s := by
  by_cases h : s = "" <;> simp [jsOrString, h]

theorem insertDesc_middle (key : α → ℕ) (x : α) (A B : List α)
    (hA : ∀ a ∈ A, key x < key a) (hB : ∀ b ∈ B, key b ≤ key x) :
    insertDesc key x (A ++ B) = A ++ x :: B := by
  induction A with
  | nil =>
    cases B with
    | nil => rfl
    | cons b bs =>
      have hb : key b ≤ key x := hB b (List.mem_cons_self b bs)
      simp [insertDesc, hb]
  | cons a as ih =>
    have ha : ¬ key a ≤ key x := not_le_of_lt (hA a (List.mem_cons_self a as))
    simp only [List.cons_append, insertDesc, if_neg ha, List.append_eq]
    rw [ih (fun a' ha' => hA a' (List.mem_cons_of_mem a ha'))]

theorem highKey_le_one (a : Anomaly) : highKey a ≤ 1 := by
  unfold highKey
  split <;> omega

theorem sortByDesc_highKey (l : List Anomaly) :
    sortByDesc highKey l =
      l.filter (fun a => a.impact == Impact.High) ++
        l.filter (fun a => a.impact != Impact.High) := by
  induction l with
  | nil => rfl
  | cons x xs ih =>
    simp only [sortByDesc, ih]
    by_cases hx : x.impact = Impact.High
    · have hkey : highKey x = 1 := by simp [highKey, hx]
      have step := insertDesc_middle highKey x []
          (xs.filter (fun a => a.impact == Impact.High) ++
            xs.filter (fun a => a.impact != Impact.High))
          (by intro a ha; exact absurd ha (List.not_mem_nil a))
          (by intro b _; rw [hkey]; exact highKey_le_one b)
      simp only [List.nil_append] at step
      rw [step]
      simp [List.filter_cons, hx]
    · have hkey : highKey x = 0 := by simp [highKey, hx]
      have step := insertDesc_middle highKey x
          (xs.filter (fun a => a.impact == Impact.High))
          (xs.filter (fun a => a.impact != Impact.High))
          (by
            intro a ha
            have := (List.mem_filter.mp ha).2
            have ha' : a.impact = Impact.High := by simpa using this
            simp [highKey, hx, ha'])
          (by
            intro b hb
            have := (List.mem_filter.mp hb).2
            have hb' : ¬ b.impact = Impact.High := by simpa using this
            simp [highKey, hx, hb'])
      rw [step]
      simp [List.filter_cons, hx]

theorem weight_le_three (a : Anomaly) : impactWeight a.impact ≤ 3 := by
  cases h : a.impact <;> simp [impactWeight]

theorem sortByDesc_weight (l : List Anomaly) :
    sortByDesc (fun a => impactWeight a.impact) l =
      l.filter (fun a => a.impact == Impact.High) ++
        (l.filter (fun a => a.impact == Impact.Medium) ++
          l.filter (fun a => a.impact == Impact.Low)) := by
  induction l with
  | nil => rfl
  | cons x xs ih =>
    simp only [sortByDesc, ih]
    cases hx : x.impact with
    | High =>
      have step := insertDesc_middle (fun a => impactWeight a.impact) x []
          (xs.filter (fun a => a.impact == Impact.High) ++
            (xs.filter (fun a => a.impact == Impact.Medium) ++
              xs.filter (fun a => a.impact == Impact.Low)))
          (by intro a ha; exact absurd ha (List.not_mem_nil a))
          (by intro b _; simp only [hx, impactWeight]; exact weight_le_three b)
      simp only [List.nil_append] at step
      rw [step]
      simp [List.filter_cons, hx]
    | Medium =>
      have step := insertDesc_middle (fun a => impactWeight a.impact) x
          (xs.filter (fun a => a.impact == Impact.High))
          (xs.filter (fun a => a.impact == Impact.Medium) ++
            xs.filter (fun a => a.impact == Impact.Low))
          (by
            intro a ha
            have := (List.mem_filter.mp ha).2
            have ha' : a.impact = Impact.High := by simpa using this
            simp [impactWeight, hx, ha'])
          (by
            intro b hb
            rcases List.mem_append.mp hb with h | h
            · have := (List.mem_filter.mp h).2
              have hb' : b.impact = Impact.Medium := by simpa using this
              simp [impactWeight, hx, hb']
            · have := (List.mem_filter.mp h).2
              have hb' : b.impact = Impact.Low := by simpa using this
              simp [impactWeight, hx, hb'])
      rw [step]
      simp [List.filter_cons, hx]
    | Low =>
      rw [← List.append_assoc]
      have step := insertDesc_middle (fun a => impactWeight a.impact) x
          (xs.filter (fun a => a.impact == Impact.High) ++
            xs.filter (fun a => a.impact == Impact.Medium))
          (xs.filter (fun a => a.impact == Impact.Low))
          (by
            intro a ha
            rcases List.mem_append.mp ha with h | h
            · have := (List.mem_filter.mp h).2
              have ha' : a.impact = Impact.High := by simpa using this
              simp [impactWeight, hx, ha']
            · have := (List.mem_filter.mp h).2
              have ha' : a.impact = Impact.Medium := by simpa using this
              simp [impactWeight, hx, ha'])
          (by
            intro b hb
            have := (List.mem_filter.mp hb).2
            have hb' : b.impact = Impact.Low := by simpa using this
            simp [impactWeight, hx, hb'])
      rw [step]
      simp [List.filter_cons, hx, List.append_assoc]

theorem insertYearDesc_ne_nil (x : String) (l : List String) :
    insertYearDesc x l ≠ [] := by
  cases l with
  | nil => simp [insertYearDesc]
  | cons y ys =>
    unfold insertYearDesc
    split <;> simp

theorem sortYearsDesc_max :
    ∀ l : List String, l ≠ [] →
      (sortYearsDesc l).headD "" ∈ l ∧
        ∀ y ∈ l, yearKey y ≤ yearKey ((sortYearsDesc l).headD "") := by
  intro l
  induction l with
  | nil => intro h; exact absurd rfl h
  | cons x xs ih =>
    intro _
    by_cases hxs0 : xs = []
    · subst hxs0
      refine ⟨by simp [sortYearsDesc, insertYearDesc], ?_⟩
      intro y hy
      have : y = x := by simpa using hy
      subst this
      simp [sortYearsDesc, insertYearDesc]
    · have hne : xs ≠ [] := hxs0
      obtain ⟨hmem, hbound⟩ := ih hne
      have hsne : sortYearsDesc xs ≠ [] := by
        obtain ⟨z, zs, hzz⟩ := List.exists_cons_of_ne_nil hne
        rw [hzz]
        simp only [sortYearsDesc]
        exact insertYearDesc_ne_nil _ _
      obtain ⟨m, rest, hsort⟩ := List.exists_cons_of_ne_nil hsne
      rw [hsort] at hmem hbound
      simp only [List.headD_cons] at hmem hbound
      have hstep : sortYearsDesc (x :: xs) = insertYearDesc x (m :: rest) := by
        simp only [sortYearsDesc]
        rw [hsort]
      by_cases hc : yearKey m ≤ yearKey x
      · have : insertYearDesc x (m :: rest) = x :: m :: rest := by
          simp [insertYearDesc, hc]
        rw [hstep, this]
        refine ⟨by simp, ?_⟩
        intro y hy
        simp only [List.headD_cons]
        rcases List.mem_cons.mp hy with h | h
        · subst h; exact le_refl _
        · exact le_trans (hbound y h) hc
      · have : insertYearDesc x (m :: rest) = m :: insertYearDesc x rest := by
          simp [insertYearDesc, hc]
        rw [hstep, this]
        refine ⟨List.mem_cons_of_mem x hmem, ?_⟩
        intro y hy
        simp only [List.headD_cons]
        rcases List.mem_cons.mp hy with h | h
        · subst h; exact le_of_not_le hc
        · exact hbound y h

theorem startsWithChars_iff (s pat : List Char) :
    startsWithChars s pat = true ↔ pat <+: s := by
  induction pat generalizing s with
  | nil =>
    cases s <;> simp [startsWithChars]
  | cons d ds ih =>
    cases s with
    | nil => simp [startsWithChars]
    | cons c cs =>
      by_cases h : c = d
      · subst h
        simp [startsWithChars, ih, List.cons_prefix_cons]
      · simp [startsWithChars, h, List.cons_prefix_cons]
        exact fun hdc _ => h hdc.symm

theorem containsChars_iff (pat s : List Char) :
    containsChars pat s = true ↔ pat <:+: s := by
  induction s with
  | nil => simp [containsChars, List.isEmpty_iff]
  | cons c cs ih =>
    simp only [containsChars, Bool.or_eq_true, ih, startsWithChars_iff]
    rw [List.infix_cons_iff]

theorem jsIncludes_iff (s pat : String) :
    jsIncludes s pat = true ↔ pat.data <:+: s.data :=
  containsChars_iff pat.data s.data

theorem jsSplitComma_no_comma (l : List Char) (h : ∀ c ∈ l, c ≠ ',') :
    jsSplitComma l = [l] := by
  induction l with
  | nil => rfl
  | cons c cs ih =>
    have hc : c ≠ ',' := h c (List.mem_cons_self c cs)
    have ihr := ih (fun d hd => h d (List.mem_cons_of_mem c hd))
    simp [jsSplitComma, hc, ihr]

theorem jsSplitComma_append_comma (q r : List Char) (hq : ∀ c ∈ q, c ≠ ',') :
    jsSplitComma (q ++ ',' :: r) = q :: jsSplitComma r := by
  induction q with
  | nil => simp [jsSplitComma]
  | cons c cs ih =>
    have hc : c ≠ ',' := hq c (List.mem_cons_self c cs)
    have ihr := ih (fun d hd => hq d (List.mem_cons_of_mem c hd))
    simp [jsSplitComma, hc, ihr]

theorem splitCommaSecond_dataUrl (body : String)
    (h : ∀ c ∈ body.data, c ≠ ',') :
    splitCommaSecond ("data:image/jpeg;base64," ++ body) = body := by
  unfold splitCommaSecond
  have hdata : ("data:image/jpeg;base64," ++ body).data =
      "data:image/jpeg;base64".data ++ ',' :: body.data := by
    rw [String.data_append]
    have hlit : "data:image/jpeg;base64,".data =
        "data:image/jpeg;base64".data ++ [','] := by decide
    rw [hlit, List.append_assoc]
    rfl
  have hpre : ∀ c ∈ "data:image/jpeg;base64".data, c ≠ ',' := by decide
  rw [hdata, jsSplitComma_append_comma _ _ hpre, jsSplitComma_no_comma _ h]
  cases body
  rfl

theorem comparisonData_map_name (data : AnalysisResult)
    (insights : List EntityInsight) (sel year : String)
    (hins : data.entity_insights = some insights) (hne : insights ≠ []) :
    (comparisonData data sel year).map (fun d => d.name) =
      insights.map (fun e => e.name) := by
  have hemp : insights.isEmpty = false := by
    cases insights with
    | nil => exact absurd rfl hne
    | cons a l => rfl
  simp only [comparisonData, hins, hemp, Bool.false_eq_true, if_false,
    List.map_map]
  apply List.map_congr_left
  intro e _
  simp only [Function.comp]
  cases e.key_metrics.find? (metricMatches sel year) <;> rfl

/-! ## Claim theorems -/

/-- C1 (counterexample): the claim says the displayed anomaly list equals the
input stably sorted by the full order High > Medium > Low and truncated to 5,
so for input impacts `[Low, High, Medium, High, Low]` the output order would
be `[High, High, Medium, Low, Low]`.  The display sort of `Dashboard.tsx`
lines 562-564 only moves High-impact anomalies forward, producing
`[High, High, Low, Medium, Low]` on that input — the order `topAnomalies`
(the spec's ranking) produces differs from the displayed one. -/
theorem c1_counterexample :
    (displayedAnomalies exImpacts).map (fun a => a.impact) =
      [Impact.High, Impact.High, Impact.Low, Impact.Medium, Impact.Low] ∧
    (topAnomalies exImpacts).map (fun a => a.impact) =
      [Impact.High, Impact.High, Impact.Medium, Impact.Low, Impact.Low] ∧
    displayedAnomalies exImpacts ≠ topAnomalies exImpacts := by
  refine ⟨by decide, by decide, by decide⟩

/-- C1 (amended): the list displayed by `Dashboard.tsx` is the input stably
reordered with every High-impact anomaly first — Medium and Low anomalies are
not ordered relative to each other and keep their original relative order —
then truncated to the first 5; the full stable High > Medium > Low ranking is
implemented only by the `topAnomalies` variant of `src/unnamed/part_003`,
which equals the High, then Medium, then Low sublists (each in original
order) truncated to 5. -/
theorem c1_displayed_ranking (l : List Anomaly) :
    displayedAnomalies l =
      (l.filter (fun a => a.impact == Impact.High) ++
        l.filter (fun a => a.impact != Impact.High)).take 5 ∧
    topAnomalies l =
      (l.filter (fun a => a.impact == Impact.High) ++
        (l.filter (fun a => a.impact == Impact.Medium) ++
          l.filter (fun a => a.impact == Impact.Low))).take 5 := by
  constructor
  · unfold displayedAnomalies
    rw [sortByDesc_highKey]
  · unfold topAnomalies
    rw [sortByDesc_weight]

/-- C2: target-year selection scans the (truthy) year labels of top-level and
per-entity metrics, returns `"2568"` whenever present, otherwise `"2025"`
whenever present, otherwise the greatest year label under (code-point)
lexicographic string comparison. -/
theorem c2_targetYear_priority (data : AnalysisResult) :
    ("2568" ∈ yearsOf data → targetYear data = "2568") ∧
    ("2568" ∉ yearsOf data → "2025" ∈ yearsOf data →
      targetYear data = "2025") ∧
    ("2568" ∉ yearsOf data → "2025" ∉ yearsOf data →
      ∀ y ∈ yearsOf data,
        targetYear data ∈ yearsOf data ∧
          yearKey y ≤ yearKey (targetYear data)) := by
  refine ⟨?_, ?_, ?_⟩
  · intro h
    simp [targetYear, h]
  · intro h1 h2
    simp [targetYear, h1, h2]
  · intro h1 h2 y hy
    have hne : yearsOf data ≠ [] := List.ne_nil_of_mem hy
    have ht : targetYear data = (sortYearsDesc (yearsOf data)).headD "" := by
      simp [targetYear, h1, h2, jsOrString_some_empty]
    obtain ⟨hmem, hbound⟩ := sortYearsDesc_max (yearsOf data) hne
    rw [ht]
    exact ⟨hmem, hbound y hy⟩

/-- Witness for C2: the spec's three examples — years `{"2568","2024"}`
select `"2568"`, years `{"2025","2024"}` select `"2025"`, years
`{"2022","2021"}` select `"2022"` (the string-greatest year). -/
theorem c2_witness :
    ("2568" ∈ yearsOf exYears1 ∧ targetYear exYears1 = "2568") ∧
    ("2568" ∉ yearsOf exYears2 ∧ "2025" ∈ yearsOf exYears2 ∧
      targetYear exYears2 = "2025") ∧
    ("2568" ∉ yearsOf exYears3 ∧ "2025" ∉ yearsOf exYears3 ∧
      targetYear exYears3 ∈ yearsOf exYears3 ∧
      yearKey "2021" ≤ yearKey (targetYear exYears3) ∧
      targetYear exYears3 = "2022") :=
  ⟨⟨by decide, (c2_targetYear_priority exYears1).1 (by decide)⟩,
   ⟨by decide, by decide,
     (c2_targetYear_priority exYears2).2.1 (by decide) (by decide)⟩,
   by decide, by decide,
   ((c2_targetYear_priority exYears3).2.2 (by decide) (by decide) "2021"
     (by decide)).1,
   ((c2_targetYear_priority exYears3).2.2 (by decide) (by decide) "2021"
     (by decide)).2,
   by decide⟩

/-- C5: when a specific entity is selected, the derived anomaly list keeps
exactly the anomalies whose `related_entity` equals the selected entity or is
absent, and hides anomalies tied to a different entity (stated for data whose
anomalies never carry an empty-string `related_entity`; the empty-string
wrinkle is the subject of C9). -/
theorem c5_anomaly_entity_filter (data : AnalysisResult) (sel : String)
    (hsel : sel ≠ "Overview")
    (hwf : ∀ a ∈ data.anomalies, a.related_entity ≠ some "") :
    ∀ a, a ∈ (currentData data sel).anomalies ↔
      a ∈ data.anomalies ∧
        (a.related_entity = some sel ∨ a.related_entity = none) := by
  intro a
  have hcur : (currentData data sel).anomalies =
      data.anomalies.filter (keepAnomaly sel) := by
    simp [currentData, hsel]
  rw [hcur, List.mem_filter]
  constructor
  · rintro ⟨hmem, hkeep⟩
    refine ⟨hmem, ?_⟩
    have hne := hwf a hmem
    unfold keepAnomaly at hkeep
    rw [Bool.or_eq_true] at hkeep
    rcases hkeep with hk | hk
    · left
      simpa using hk
    · cases hre : a.related_entity with
      | none => exact Or.inr rfl
      | some s =>
        rw [hre] at hk hne
        exfalso
        simp [strTruthy] at hk
        exact hne (by rw [hk])
  · rintro ⟨hmem, hor⟩
    refine ⟨hmem, ?_⟩
    unfold keepAnomaly
    rcases hor with h | h
    · rw [h]
      simp
    · rw [h]
      simp [strTruthy]

/-- Witness for C5: the spec's example — anomalies `A` (entity `"X"`), `B`
(no entity), `C` (entity `"Y"`) with selected entity `"X"` filter to
`[A, B]`. -/
theorem c5_witness :
    (("X" : String) ≠ "Overview") ∧
    (∀ a ∈ exData5.anomalies, a.related_entity ≠ some "") ∧
    (currentData exData5 "X").anomalies = [exAnomalyA, exAnomalyB] ∧
    (exAnomalyA ∈ (currentData exData5 "X").anomalies ↔
      exAnomalyA ∈ exData5.anomalies ∧
        (exAnomalyA.related_entity = some "X" ∨
          exAnomalyA.related_entity = none)) ∧
    exAnomalyC ∉ (currentData exData5 "X").anomalies :=
  ⟨by decide, by decide, by decide,
   c5_anomaly_entity_filter exData5 "X" (by decide) (by decide) exAnomalyA,
   by decide⟩

/-- C8 (implicit claim): for every selected entity other than `"Overview"`,
the derived ratio list is empty — top-level `financial_ratios` surface only
under the `"Overview"` pseudo-entity. -/
theorem c8_no_ratios_outside_overview (data : AnalysisResult) (sel : String)
    (h : sel ≠ "Overview") : (currentData data sel).ratios = [] := by
  simp [currentData, h]

/-- Witness for C8 at a concrete result and entity. -/
theorem c8_witness :
    (("X" : String) ≠ "Overview") ∧ (currentData exYears1 "X").ratios = [] :=
  ⟨by decide, c8_no_ratios_outside_overview exYears1 "X" (by decide)⟩

/-- C9 (implicit claim): an anomaly whose `related_entity` is present but
equal to the empty string is entity-agnostic — it is kept in the filtered
anomaly list for every selected entity, because the filter tests JS
truthiness (`!a.related_entity`) rather than absence. -/
theorem c9_empty_related_entity_always_kept (data : AnalysisResult)
    (sel : String) (a : Anomaly) (ha : a ∈ data.anomalies)
    (he : a.related_entity = some "") :
    a ∈ (currentData data sel).anomalies := by
  by_cases hsel : sel = "Overview"
  · subst hsel
    simpa [currentData] using ha
  · have hcur : (currentData data sel).anomalies =
        data.anomalies.filter (keepAnomaly sel) := by
      simp [currentData, hsel]
    rw [hcur]
    refine List.mem_filter.mpr ⟨ha, ?_⟩
    simp [keepAnomaly, strTruthy, he]

/-- Witness for C9: the empty-`related_entity` anomaly is kept under an
unrelated entity selection and under `"Overview"`. -/
theorem c9_witness :
    exAnomalyE ∈ exData9.anomalies ∧ exAnomalyE.related_entity = some "" ∧
    exAnomalyE ∈ (currentData exData9 "Z").anomalies ∧
    exAnomalyE ∈ (currentData exData9 "Overview").anomalies :=
  ⟨by decide, by decide,
   c9_empty_related_entity_always_kept exData9 "Z" exAnomalyE (by decide)
     (by decide),
   c9_empty_related_entity_always_kept exData9 "Overview" exAnomalyE
     (by decide) (by decide)⟩

/-- C10 (implicit claim): with two `entity_insights` entries of the same
name, selecting that name derives summary and liquidity status from the
first occurrence only (first match wins, no merging, no error), while the
comparison series still contains one entry per occurrence, so the duplicated
name appears at least twice among the series names. -/
theorem c10_duplicate_entity_first_wins (data : AnalysisResult)
    (sel msel y : String) (pre mid post : List EntityInsight)
    (e1 e2 : EntityInsight)
    (hins : data.entity_insights = some (pre ++ e1 :: (mid ++ e2 :: post)))
    (hpre : ∀ e ∈ pre, e.name ≠ sel)
    (h1 : e1.name = sel) (h2 : e2.name = sel)
    (hov : sel ≠ "Overview") (hsum : e1.summary ≠ "") :
    (currentData data sel).summary = e1.summary ∧
    (currentData data sel).liquidityStatus = some e1.liquidity_status ∧
    2 ≤ ((comparisonData data msel y).map (fun d => d.name)).count sel := by
  have hfind : (pre ++ e1 :: (mid ++ e2 :: post)).find?
      (fun e => e.name == sel) = some e1 := by
    rw [List.find?_append]
    have hnone : pre.find? (fun e => e.name == sel) = none :=
      List.find?_eq_none.mpr (fun e he => by simp [hpre e he])
    rw [hnone, Option.none_or]
    exact List.find?_cons_of_pos _ (by simp [h1])
  refine ⟨?_, ?_, ?_⟩
  · simp [currentData, hov, hins, hfind, jsOrString, hsum]
  · simp [currentData, hov, hins, hfind]
  · have hnames := comparisonData_map_name data
      (pre ++ e1 :: (mid ++ e2 :: post)) msel y hins (by simp)
    rw [hnames]
    simp [List.count_append, List.count_cons, h1, h2]
    omega

/-- Witness for C10: two entities both named `"D"`; the summary and
liquidity status come from the first, and `"D"` occurs twice among the
comparison-series names. -/
theorem c10_witness :
    exData10.entity_insights =
        some ([] ++ exEntD1 :: ([] ++ exEntD2 :: [])) ∧
    (currentData exData10 "D").summary = "first" ∧
    (currentData exData10 "D").liquidityStatus = some Status.Good ∧
    2 ≤ ((comparisonData exData10 "M" "2568").map (fun d => d.name)).count "D" :=
  ⟨rfl,
   (c10_duplicate_entity_first_wins exData10 "D" "M" "2568" [] [] []
     exEntD1 exEntD2 rfl (by simp) rfl rfl (by decide) (by decide)).1,
   (c10_duplicate_entity_first_wins exData10 "D" "M" "2568" [] [] []
     exEntD1 exEntD2 rfl (by simp) rfl rfl (by decide) (by decide)).2.1,
   (c10_duplicate_entity_first_wins exData10 "D" "M" "2568" [] [] []
     exEntD1 exEntD2 rfl (by simp) rfl rfl (by decide) (by decide)).2.2⟩

/-- C3: for a non-empty `entity_insights` list, the comparison series has
exactly one entry per entity in order (same name sequence); an entity whose
metrics hold no match for the selected label and year contributes value `0`
rather than being omitted; and the chart renders its empty state exactly when
the series is empty or every entry's value is `0`. -/
theorem c3_comparison_series (data : AnalysisResult)
    (insights : List EntityInsight) (sel year : String)
    (hins : data.entity_insights = some insights) (hne : insights ≠ []) :
    ((comparisonData data sel year).map (fun d => d.name) =
      insights.map (fun e => e.name)) ∧
    (∀ i, (hi : i < insights.length) →
      (insights.get ⟨i, hi⟩).key_metrics.find? (metricMatches sel year) =
          none →
      ∃ hj : i < (comparisonData data sel year).length,
        ((comparisonData data sel year).get ⟨i, hj⟩).value = 0) ∧
    (showsEmptyState (comparisonData data sel year) = true ↔
      (comparisonData data sel year = [] ∨
        ∀ d ∈ comparisonData data sel year, d.value = 0)) := by
  have hemp : insights.isEmpty = false := by
    cases insights with
    | nil => exact absurd rfl hne
    | cons a l => rfl
  have hcd : comparisonData data sel year =
      insights.map (fun e =>
        match e.key_metrics.find? (metricMatches sel year) with
        | some m => { name := e.name, value := m.value, unit := m.unit }
        | none => { name := e.name, value := 0, unit := "" }) := by
    simp [comparisonData, hins, hemp]
  refine ⟨comparisonData_map_name data insights sel year hins hne, ?_, ?_⟩
  · intro i hi hfind
    have hj : i < (comparisonData data sel year).length := by
      rw [hcd, List.length_map]
      exact hi
    refine ⟨hj, ?_⟩
    simp only [List.get_eq_getElem] at hfind ⊢
    simp only [hcd, List.getElem_map]
    rw [hfind]
  · constructor
    · intro h
      unfold showsEmptyState at h
      rw [Bool.or_eq_true] at h
      rcases h with h | h
      · exact Or.inl (List.isEmpty_iff.mp h)
      · right
        intro d hd
        have hany : (comparisonData data sel year).any
            (fun d => d.value != 0) = false := by
          cases hx : (comparisonData data sel year).any (fun d => d.value != 0)
          · rfl
          · rw [hx] at h
            exact absurd h (by decide)
        have hdd := List.any_eq_false.mp hany d hd
        simpa using hdd
    · intro h
      unfold showsEmptyState
      rw [Bool.or_eq_true]
      rcases h with h | h
      · left
        simp [h]
      · right
        have : (comparisonData data sel year).any
            (fun d => d.value != 0) = false :=
          List.any_eq_false.mpr (fun d hd => by simpa using h d hd)
        simp [this]

/-- Witness for C3: three entities of which two carry a matching metric — the
series has three entries, the unmatched entity contributes `0`, the chart
does not show its empty state; and a three-entity result with no match at all
yields an all-zero series and the empty state. -/
theorem c3_witness :
    exData3.entity_insights = some [exEntity31, exEntity32, exEntity33] ∧
    ([exEntity31, exEntity32, exEntity33] : List EntityInsight) ≠ [] ∧
    (comparisonData exData3 "NetProfit" "2568").map (fun d => d.name) =
      ["E1", "E2", "E3"] ∧
    (comparisonData exData3 "NetProfit" "2568").map (fun d => d.value) =
      [5, 3, 0] ∧
    showsEmptyState (comparisonData exData3 "NetProfit" "2568") = false ∧
    showsEmptyState (comparisonData exDataZero3 "NetProfit" "2568") = true :=
  ⟨rfl, by simp,
   (c3_comparison_series exData3 [exEntity31, exEntity32, exEntity33]
     "NetProfit" "2568" rfl (by simp)).1,
   by decide, by decide, by decide⟩

/-- C4 (counterexample): the claim says a metric matches when its label
contains **or is contained by** the chosen comparison label.  For the metric
labelled `"Profit"` and the chosen label `"ProfitNet"` (label contained in
the chosen label, year equal) the spec-worded matcher accepts but the
source's matcher (`m.label.includes(comparisonMetric)`) rejects, so the
entity contributes `0` to the comparison series instead of its value `7`. -/
theorem c4_counterexample :
    specMetricMatches "ProfitNet" "2025" exMetric4 = true ∧
    metricMatches "ProfitNet" "2025" exMetric4 = false ∧
    (comparisonData exData4 "ProfitNet" "2025").map (fun d => d.value) =
      [0] := by
  refine ⟨by decide, by decide, by decide⟩

/-- C4 (amended): the comparison-panel matcher is one-directional — a metric
matches exactly when the chosen comparison label occurs as a substring of the
metric's label (not the other way around), combined with exact string
equality on the selected year. -/
theorem c4_loose_match_one_directional (sel year : String)
    (m : FinancialMetric) :
    metricMatches sel year m = true ↔
      (sel.data <:+: m.label.data ∧ m.year = some year) := by
  unfold metricMatches
  rw [Bool.and_eq_true, jsIncludes_iff]
  constructor
  · rintro ⟨h1, h2⟩
    exact ⟨h1, by simpa using h2⟩
  · rintro ⟨h1, h2⟩
    exact ⟨h1, by simp [h2]⟩

/-- C6: the normalizer classifies an absent or empty response text as the
empty-response error, and a non-empty text on which `JSON.parse` fails as the
malformed-JSON error; the two error conditions are distinct, and an empty
response is never reported as malformed JSON. -/
theorem c6_normalizer_error_classification
    (parse : String → Option AnalysisResult) :
    (∀ text : Option String, text = none ∨ text = some "" →
      normalizeResponse parse text =
        Except.error AnalyzeError.emptyResponse) ∧
    (∀ s : String, s ≠ "" → parse s = none →
      normalizeResponse parse (some s) =
        Except.error AnalyzeError.invalidJson) ∧
    AnalyzeError.emptyResponse ≠ AnalyzeError.invalidJson ∧
    normalizeResponse parse (some "") ≠
      Except.error AnalyzeError.invalidJson := by
  refine ⟨?_, ?_, by decide, ?_⟩
  · rintro text (rfl | rfl)
    · rfl
    · simp [normalizeResponse]
  · intro s hs hp
    simp [normalizeResponse, hs, hp]
  · intro hcontra
    simp [normalizeResponse] at hcontra

/-- Witness for C6: with a parser that fails on everything, the empty string
is classified as the empty-response error and `"not json"` as the
malformed-JSON error. -/
theorem c6_witness :
    normalizeResponse (fun _ => none) (some "") =
      Except.error AnalyzeError.emptyResponse ∧
    (("not json" : String) ≠ "") ∧
    normalizeResponse (fun _ => none) (some "not json") =
      Except.error AnalyzeError.invalidJson :=
  ⟨(c6_normalizer_error_classification (fun _ => none)).1 (some "")
     (Or.inr rfl),
   by decide,
   (c6_normalizer_error_classification (fun _ => none)).2.1 "not json"
     (by decide) rfl⟩

/-- C7: for every accepted image input (JPEG, PNG or WEBP) processed with an
available canvas context, the ingestion payload reports MIME type
`image/jpeg` and carries exactly the base64 body produced by the JPEG
encoder at quality `0.8` (`4/5`) — the data-URL prefix stripped — at
dimensions whose width does not exceed 1500 and whose aspect ratio equals
the original (`height * width' = height' * width`); accepted non-image
inputs (PDF, XLSX, XLS, CSV) keep their original MIME type.  The encoder
output is assumed comma-free, as base64 is. -/
theorem c7_ingestion_normalization (env : CanvasEnv) (f : InputFile)
    (payload : FileData) (hp : handleFileChange env f = some payload)
    (hctx : env.ctxAvailable = true)
    (hnc : ∀ c ∈ (env.encodeJpeg (resizeDims f.width f.height).1
        (resizeDims f.width f.height).2 (4 / 5) f.dataUrl).data, c ≠ ',') :
    (f.type ∈ (["image/jpeg", "image/png", "image/webp"] : List String) →
      payload.mimeType = "image/jpeg" ∧
      payload.base64 = env.encodeJpeg (resizeDims f.width f.height).1
        (resizeDims f.width f.height).2 (4 / 5) f.dataUrl ∧
      (resizeDims f.width f.height).1 ≤ 1500 ∧
      f.height * (resizeDims f.width f.height).1 =
        (resizeDims f.width f.height).2 * f.width) ∧
    (f.type ∈ (["application/pdf",
        "application/vnd.openxmlformats-officedocument.spreadsheetml.sheet",
        "application/vnd.ms-excel", "text/csv"] : List String) →
      payload.mimeType = f.type) := by
  unfold handleFileChange at hp
  split at hp
  · exact absurd hp (by simp)
  · split at hp
    · exact absurd hp (by simp)
    · simp only [Option.some.injEq] at hp
      subst hp
      constructor
      · intro him
        have himg : jsStartsWith f.type "image/" = true := by
          simp only [List.mem_cons, List.not_mem_nil, or_false] at him
          rcases him with h | h | h <;> rw [h] <;> decide
        refine ⟨by simp [himg], ?_, ?_, ?_⟩
        · simp only [himg, if_true]
          unfold compressImage
          rw [hctx, if_pos rfl]
          exact splitCommaSecond_dataUrl _ hnc
        · unfold resizeDims
          split
          · norm_num
          · rename_i hw
            simpa using le_of_not_lt hw
        · unfold resizeDims
          split
          · rename_i hw
            have hw0 : f.width ≠ 0 :=
              ne_of_gt (lt_trans (by norm_num) hw)
            simp only
            rw [div_mul_cancel₀ _ hw0]
          · simp only
      · intro hmem
        have hni : jsStartsWith f.type "image/" = false := by
          simp only [List.mem_cons, List.not_mem_nil, or_false] at hmem
          rcases hmem with h | h | h | h <;> rw [h] <;> decide
        simp [hni]

/-- Witness for C7: a 2000x1000 PNG is accepted, reported as `image/jpeg`
and carries exactly the (stubbed) encoder output with the data-URL prefix
stripped, at a width clamped to 1500; a PDF keeps its MIME type. -/
theorem c7_witness :
    handleFileChange exEnv exImage = some exImagePayload ∧
    exEnv.ctxAvailable = true ∧
    exImagePayload.mimeType = "image/jpeg" ∧
    exImagePayload.base64 =
      exEnv.encodeJpeg (resizeDims exImage.width exImage.height).1
        (resizeDims exImage.width exImage.height).2 (4 / 5)
        exImage.dataUrl ∧
    (resizeDims exImage.width exImage.height).1 ≤ 1500 ∧
    handleFileChange exEnv exPdf = some exPdfPayload ∧
    exPdfPayload.mimeType = exPdf.type := by
  have hnc1 : ∀ c ∈ (exEnv.encodeJpeg
      (resizeDims exImage.width exImage.height).1
      (resizeDims exImage.width exImage.height).2 (4 / 5)
      exImage.dataUrl).data, c ≠ ',' := by decide
  have hnc2 : ∀ c ∈ (exEnv.encodeJpeg
      (resizeDims exPdf.width exPdf.height).1
      (resizeDims exPdf.width exPdf.height).2 (4 / 5)
      exPdf.dataUrl).data, c ≠ ',' := by decide
  have hp1 : handleFileChange exEnv exImage = some exImagePayload := by decide
  have hp2 : handleFileChange exEnv exPdf = some exPdfPayload := by decide
  have happ1 := c7_ingestion_normalization exEnv exImage exImagePayload hp1
    rfl hnc1
  have happ2 := c7_ingestion_normalization exEnv exPdf exPdfPayload hp2
    rfl hnc2
  have himg := happ1.1 (by decide)
  exact ⟨hp1, rfl, himg.1, himg.2.1, himg.2.2.1, hp2, happ2.2 (by decide)⟩

end Fina
